import Mathlib

set_option linter.all false

/-! Shallow embedding of the chat UI state logic of the repository:
`MainContainer` (chat mode and sidebar effect) and the `GroupChat`
component (send, search, reply, visualization and scroll handlers).
JavaScript strings are modelled as Lean `String`, `null` and
`undefined` as `Option`, the `visualizationStates` record as a
function `String → Option VisState`, and each asynchronous
collaborator call as an explicit outcome parameter together with a
list of the calls the handler emits. -/

/-- Whitespace test used to model JavaScript `String.prototype.trim`
(the common ASCII whitespace characters). -/
def jsIsSpace (c : Char) : Bool :=
  c = ' ' || c = '\t' || c = '\n' || c = '\r'

/-- Models JavaScript `s.trim()`. -/
def jsTrim (s : String) : String :=
  String.mk (((s.data.dropWhile jsIsSpace).reverse.dropWhile jsIsSpace).reverse)

/-- Models JavaScript `s.length`. -/
def jsLength (s : String) : Nat := s.data.length

/-- Models JavaScript `s.substring(0, n)`. -/
def jsTake (s : String) (n : Nat) : String := String.mk (s.data.take n)

/-- JavaScript truthiness of a possibly absent string value: an absent
value and the empty string are falsy. -/
def strTruthy : Option String → Bool
  | some s => s != ""
  | none => false

/-- The top level chat mode held by `MainContainer` (the source uses the
string literals "reports", "private" and "team"; `private` is a Lean
keyword, so that constructor is named `privateChat`). -/
inductive ChatMode
  | reports
  | privateChat
  | team
  deriving DecidableEq

/-- The `React.useEffect` of `MainContainer` (src/src/components/MainContainer.tsx
lines 17-22) that reacts to `chatMode` changes.  Its source comment reads
"Close sidebar when switching away from private chat mode", but the body
runs `setSidebarOpen(false)` exactly when the new mode IS `private` and
otherwise leaves the sidebar state alone.  Returns the `sidebarOpen`
state after the effect has run for the new mode. -/
def closeSidebarEffect (chatMode : ChatMode) (sidebarOpen : Bool) : Bool :=
  if chatMode = ChatMode.privateChat then false else sidebarOpen

/-- The fields of a team chat message (`GroupMessage` of
src/src/types/index.ts) that the embedded handlers read. -/
structure GroupMsg where
  id : String
  user_id : String
  visualization_data : Option String
  deriving DecidableEq

/-- The transient image attachment draft of `GroupChat`. -/
structure SelectedImage where
  url : String
  filename : String
  size : Nat
  deriving DecidableEq

/-- The `originalMessage` payload stored inside `ReplyState`. -/
structure OriginalMessage where
  id : String
  content : String
  userName : String
  timestamp : String
  deriving DecidableEq

/-- The reply state of `GroupChat` (`ReplyState` of src/src/types/index.ts,
as used in src/unnamed/part_000). -/
structure ReplyState where
  isReplying : Bool
  messageId : Option String
  messageSnippet : Option String
  originalMessage : Option OriginalMessage
  deriving DecidableEq

/-- The idle reply state that `GroupChat` initialises and resets to. -/
def initialReplyState : ReplyState :=
  { isReplying := false, messageId := none, messageSnippet := none,
    originalMessage := none }

/-- One entry of the `visualizationStates` record of `GroupChat`. -/
structure VisState where
  isGenerating : Bool
  content : Option String
  hasVisualization : Bool
  deriving DecidableEq

/-- The pieces of `GroupChat` component state that the embedded send,
search and reply handlers read or write. -/
structure GroupChatState where
  inputValue : String
  searchResults : List GroupMsg
  isSearching : Bool
  selectedImage : Option SelectedImage
  replyState : ReplyState
  showSearchResults : Bool
  error : Option String

/-- The scroll behavior argument of `scrollToBottom`. -/
inductive ScrollBehavior
  | smooth
  | auto
  deriving DecidableEq

/-- Whether the awaited `sendMessage` collaborator call resolves or
rejects. -/
inductive SendOutcome
  | success
  | failure
  deriving DecidableEq

/-- One observable step of `handleSendMessage`: a React state update,
the `sendMessage` collaborator call, or the deferred scroll. -/
inductive SendEvent
  | setInput (v : String)
  | setImage (v : Option SelectedImage)
  | setReply (v : ReplyState)
  | callSend (text : String) (image : Option SelectedImage)
      (reply : Option OriginalMessage)
  | setErrorMsg (v : Option String)
  | scheduleScroll (behavior : ScrollBehavior)
  deriving DecidableEq

/-- The rejection guard of `handleSendMessage` (src/unnamed/part_000
line 205): `(!inputValue.trim() && !selectedImage) || loading`. -/
def sendRejected (st : GroupChatState) (loading : Bool) : Bool :=
  (jsTrim st.inputValue == "" && st.selectedImage.isNone) || loading

/-- The ordered event trace of `handleSendMessage` (src/unnamed/part_000
lines 204-233): either the guard rejects and nothing happens, or the
input, image and reply state are cleared, `sendMessage` is called with
the captured pre-clear values, and then either a scroll is scheduled
(resolution) or the error banner is set (rejection of the promise). -/
def sendEventsOf (st : GroupChatState) (loading : Bool)
    (outcome : SendOutcome) : List SendEvent :=
  if sendRejected st loading then []
  else
    [SendEvent.setInput "",
     SendEvent.setImage none,
     SendEvent.setReply initialReplyState,
     SendEvent.callSend (jsTrim st.inputValue) st.selectedImage
       (if st.replyState.isReplying then st.replyState.originalMessage
        else none)] ++
    match outcome with
    | SendOutcome.success => [SendEvent.scheduleScroll ScrollBehavior.smooth]
    | SendOutcome.failure =>
        [SendEvent.setErrorMsg
          (some "Failed to send message. Please try again.")]

/-- How each send event acts on the component state. -/
def applySendEvent (st : GroupChatState) : SendEvent → GroupChatState
  | SendEvent.setInput v => { st with inputValue := v }
  | SendEvent.setImage v => { st with selectedImage := v }
  | SendEvent.setReply v => { st with replyState := v }
  | SendEvent.callSend _ _ _ => st
  | SendEvent.setErrorMsg v => { st with error := v }
  | SendEvent.scheduleScroll _ => st

/-- The component state after `handleSendMessage` has run to completion
for the given collaborator outcome. -/
def handleSendMessage (st : GroupChatState) (loading : Bool)
    (outcome : SendOutcome) : GroupChatState :=
  (sendEventsOf st loading outcome).foldl applySendEvent st

/-- The `sendMessage` collaborator calls that an event trace contains. -/
def sendCallsOf (events : List SendEvent) :
    List (String × Option SelectedImage × Option OriginalMessage) :=
  events.filterMap fun e =>
    match e with
    | SendEvent.callSend t i r => some (t, i, r)
    | _ => none

/-- Whether the awaited `searchMessages` collaborator call resolves
(with a result list) or rejects. -/
inductive SearchOutcome
  | success (results : List GroupMsg)
  | failure
  deriving DecidableEq

/-- `handleSearch` (src/unnamed/part_000 lines 236-250): a blank query
returns immediately; otherwise the busy flag is set, the collaborator
result replaces the result set and opens the results surface (or, on
rejection, the error banner is set), and the `finally` clause clears
the busy flag. -/
def handleSearch (st : GroupChatState) (query : String)
    (outcome : SearchOutcome) : GroupChatState :=
  if jsTrim query == "" then st
  else
    let busy := { st with isSearching := true }
    let afterTry :=
      match outcome with
      | SearchOutcome.success results =>
          { busy with searchResults := results, showSearchResults := true }
      | SearchOutcome.failure =>
          { busy with error := some "Search failed. Please try again." }
    { afterTry with isSearching := false }

/-- `handleReply` (src/unnamed/part_000 lines 306-319): stores the reply
target, truncating the snippet to the first 100 units plus "..." when
the content is longer than 100 units. -/
def handleReply (st : GroupChatState) (messageId messageContent userName
    timestamp : String) : GroupChatState :=
  { st with replyState :=
    { isReplying := true
      messageId := some messageId
      messageSnippet := some (if jsLength messageContent > 100
        then jsTake messageContent 100 ++ "..."
        else messageContent)
      originalMessage := some
        { id := messageId, content := messageContent,
          userName := userName, timestamp := timestamp } } }

/-- The `visualizationStates` record, keyed by message id. -/
abbrev VisStates := String → Option VisState

/-- A functional update of one entry of `visualizationStates` (the
spread update `{ ...prev, [messageId]: v }` of the source). -/
def setVisState (m : VisStates) (id : String) (v : VisState) : VisStates :=
  fun k => if k = id then some v else m k

/-- The entry written when generation starts (src/unnamed/part_000
lines 337-344). -/
def generatingEntry : VisState :=
  { isGenerating := true, content := none, hasVisualization := false }

/-- The entry written when generation completes (lines 350-357). -/
def readyEntry : VisState :=
  { isGenerating := false, content := some "generated",
    hasVisualization := true }

/-- The entry written when generation fails (lines 362-369). -/
def failedEntry : VisState :=
  { isGenerating := false, content := none, hasVisualization := false }

/-- Whether the awaited `generateVisualization` collaborator call
resolves or rejects. -/
inductive GenOutcome
  | success
  | failure
  deriving DecidableEq

/-- The observable behaviour of one run of `handleCreateVisualization`:
the states after the first update (the generating transition), the
states after the try/catch completes, and the collaborator calls made. -/
structure VisHandlerResult where
  generatingStates : VisStates
  finalStates : VisStates
  generateCalls : List (String × String)

/-- `handleCreateVisualization` (src/unnamed/part_000 lines 333-371):
unconditionally writes the generating entry for the id, calls
`generateVisualization(messageId, messageContent)`, then writes the
ready entry on resolution or the failed entry on rejection. -/
def handleCreateVisualization (states : VisStates)
    (messageId messageContent : String) (outcome : GenOutcome) :
    VisHandlerResult :=
  let s1 := setVisState states messageId generatingEntry
  match outcome with
  | GenOutcome.success =>
      { generatingStates := s1
        finalStates := setVisState s1 messageId readyEntry
        generateCalls := [(messageId, messageContent)] }
  | GenOutcome.failure =>
      { generatingStates := s1
        finalStates := setVisState s1 messageId failedEntry
        generateCalls := [(messageId, messageContent)] }

/-- One visualization-state entry never has `isGenerating` and
`hasVisualization` both true. -/
def VisEntryOK (v : VisState) : Prop :=
  ¬(v.isGenerating = true ∧ v.hasVisualization = true)

/-- Every entry of the `visualizationStates` record satisfies
`VisEntryOK`. -/
def VisInvariant (m : VisStates) : Prop :=
  ∀ k v, m k = some v → VisEntryOK v

/-- `handleViewVisualization` (src/unnamed/part_000 lines 374-395):
returns `some messageId` when `showVisualization(messageId)` is called
and `none` when the call falls through as a no-op.  The first branch
fires on a truthy `visualization_data` of the found message, the second
on truthy local content different from the string "generated". -/
def handleViewVisualization (messages : List GroupMsg) (states : VisStates)
    (messageId : String) : Option String :=
  let message := messages.find? fun m => m.id == messageId
  if strTruthy (message.bind fun m => m.visualization_data) then
    some messageId
  else
    match states messageId with
    | some localState =>
        match localState.content with
        | some c => if c != "" && c != "generated" then some messageId
            else none
        | none => none
    | none => none

/-- Whether the message found for the id carries a truthy persisted
visualization payload (the first branch condition of
`handleViewVisualization`). -/
def persistedPayloadShown (messages : List GroupMsg)
    (messageId : String) : Bool :=
  strTruthy ((messages.find? fun m => m.id == messageId).bind
    fun m => m.visualization_data)

/-- Whether the local visualization state of the id holds usable
content: present (truthy) and different from the placeholder sentinel
"generated" (the second branch condition of `handleViewVisualization`). -/
def localContentUsable (states : VisStates) (messageId : String) : Bool :=
  match states messageId with
  | some localState =>
      match localState.content with
      | some c => c != "" && c != "generated"
      | none => false
  | none => false

/-- The result of one run of the "Force scroll to bottom when messages
change" effect. -/
structure MessagesChangedResult where
  scrollCommands : List ScrollBehavior
  hasScrolledToBottom : Bool
  deriving DecidableEq

/-- The messages-changed effect (src/unnamed/part_000 lines 104-115),
which runs whenever `messages.length` changes: when the list is
non-empty and `!hasScrolledToBottom || messages.length > 0` holds, it
issues an immediate scroll command and sets `hasScrolledToBottom`. -/
def messagesChangedEffect (messagesLength : Nat)
    (hasScrolledToBottom : Bool) : MessagesChangedResult :=
  if messagesLength > 0 then
    if hasScrolledToBottom = false ∨ messagesLength > 0 then
      { scrollCommands := [ScrollBehavior.auto], hasScrolledToBottom := true }
    else
      { scrollCommands := [], hasScrolledToBottom := hasScrolledToBottom }
  else
    { scrollCommands := [], hasScrolledToBottom := hasScrolledToBottom }

/-- The new-messages effect (src/unnamed/part_000 lines 139-155), which
runs whenever `messages` changes: when the list is non-empty, no
load-older operation is in progress and the container ref is present,
it issues a smooth scroll command exactly when the viewport is within
100 units of the bottom or the newest message was authored by the
current user. -/
def newMessagesEffect (messages : List GroupMsg) (loadingMore : Bool)
    (containerPresent : Bool) (scrollHeight scrollTop clientHeight : Int)
    (userId : Option String) : List ScrollBehavior :=
  if messages.length > 0 ∧ loadingMore = false then
    if containerPresent then
      match messages.getLast? with
      | some latest =>
          let isNearBottom := scrollHeight - scrollTop - clientHeight < 100
          let isOwnMessage := some latest.user_id == userId
          if isNearBottom ∨ isOwnMessage = true then [ScrollBehavior.smooth]
          else []
      | none => []
    else []
  else []

/-- All scroll commands that the two message effects together issue on
one change of the message list (both effects have the messages in their
dependency array, so a growth of the list re-runs both). -/
def scrollCommandsOnMessagesChange (messages : List GroupMsg)
    (hasScrolledToBottom : Bool) (loadingMore : Bool)
    (containerPresent : Bool) (scrollHeight scrollTop clientHeight : Int)
    (userId : Option String) : List ScrollBehavior :=
  (messagesChangedEffect messages.length hasScrolledToBottom).scrollCommands ++
    newMessagesEffect messages loadingMore containerPresent scrollHeight
      scrollTop clientHeight userId

/-- A sample message without a persisted visualization payload. -/
def msgA : GroupMsg := { id := "m1", user_id := "u1", visualization_data := none }

/-- A second sample message, authored by a different user. -/
def msgB : GroupMsg := { id := "m2", user_id := "u2", visualization_data := none }

/-- A sample message carrying a persisted visualization payload. -/
def msgWithPayload : GroupMsg :=
  { id := "m3", user_id := "u1", visualization_data := some "<html>" }

/-- A sample message list whose newest message is authored by "u2". -/
def c2Messages : List GroupMsg := [msgA, msgB]

/-- The freshly mounted component state. -/
def sampleState : GroupChatState :=
  { inputValue := "", searchResults := [], isSearching := false,
    selectedImage := none, replyState := initialReplyState,
    showSearchResults := false, error := none }

/-- The component state with a non-empty draft typed into the input. -/
def typedState : GroupChatState :=
  { sampleState with inputValue := "hello team" }

/-- The empty `visualizationStates` record. -/
def emptyVisStates : VisStates := fun _ => none

/-- A `visualizationStates` record in which id "m1" is already
generating. -/
def alreadyGeneratingStates : VisStates :=
  setVisState emptyVisStates "m1" generatingEntry

/-- A 150 character string. -/
def str150 : String := String.mk (List.replicate 150 'a')

/-- A 50 character string. -/
def str50 : String := String.mk (List.replicate 50 'b')

/-- C1: the claim (and the source comment of the effect) says that
switching the chat mode away from `private` results in the sidebar
being closed for every prior sidebar state.  Evaluating the effect of
`MainContainer` shows the opposite guard: after switching to `team` or
`reports` an open sidebar stays open, and the effect closes the sidebar
exactly when the new mode is `private`. -/
theorem c1_sidebar_effect_eval :
    closeSidebarEffect ChatMode.team true = true ∧
    closeSidebarEffect ChatMode.reports true = true ∧
    closeSidebarEffect ChatMode.privateChat true = false := by decide

/-- C2 counterexample: the message list has grown past the initial load
(two messages, `hasScrolledToBottom` already true), no load-older
operation is in progress, the viewport is 500 units from the bottom
(1000 - 0 - 500, far beyond the 100 unit threshold) and the newest
message is authored by "u2" while the current user is "u1".  The claim
says no scroll command is issued; the code issues one, because the
messages-changed effect scrolls unconditionally whenever the list is
non-empty. -/
theorem c2_counterexample :
    ¬((1000 : Int) - 0 - 500 < 100) ∧
    (List.getLast? c2Messages).map (fun m => m.user_id) = some "u2" ∧
    scrollCommandsOnMessagesChange c2Messages true false true 1000 0 500
      (some "u1") = [ScrollBehavior.auto] := by decide

/-- C2 (amended): on a message-list change with the list non-empty and
no load-older operation in progress, the new-messages effect issues its
smooth scroll command exactly when the viewport was within 100 units of
the bottom or the newest message was authored by the current user; but
the messages-changed effect issues an immediate scroll command
unconditionally, so a scroll command is issued even when the viewport
is far from the bottom and the newest message is from another user. -/
theorem c2_amended_scroll (messages : List GroupMsg)
    (hasScrolledToBottom : Bool) (scrollHeight scrollTop clientHeight : Int)
    (userId : Option String) (latest : GroupMsg)
    (hlast : messages.getLast? = some latest) :
    (newMessagesEffect messages false true scrollHeight scrollTop
        clientHeight userId =
      if scrollHeight - scrollTop - clientHeight < 100 ∨
          (some latest.user_id == userId) = true
      then [ScrollBehavior.smooth] else []) ∧
    (messagesChangedEffect messages.length hasScrolledToBottom).scrollCommands =
      [ScrollBehavior.auto] := by
  have hne : messages ≠ [] := by
    intro h
    rw [h] at hlast
    simp at hlast
  have hlen : messages.length > 0 := List.length_pos.mpr hne
  constructor
  · simp [newMessagesEffect, hlast, hlen]
  · simp [messagesChangedEffect, hlen]

/-- C2 amended, applied at a concrete input: two messages, the newest
from "u2", current user "u1", viewport 500 units from the bottom. -/
theorem c2_amended_scroll_witness :
    (newMessagesEffect c2Messages false true 1000 0 500 (some "u1") =
      if (1000 : Int) - 0 - 500 < 100 ∨
          (some msgB.user_id == some "u1") = true
      then [ScrollBehavior.smooth] else []) ∧
    (messagesChangedEffect c2Messages.length true).scrollCommands =
      [ScrollBehavior.auto] :=
  c2_amended_scroll c2Messages true 1000 0 500 (some "u1") msgB (by decide)

/-- C3 counterexample: with the state of id "m1" already `generating`,
invoking `handleCreateVisualization` again nonetheless starts a new
generation (a `generateVisualization` call is issued) and re-enters the
generating transition for that id. -/
theorem c3_counterexample :
    alreadyGeneratingStates "m1" = some generatingEntry ∧
    (handleCreateVisualization alreadyGeneratingStates "m1" "chart"
      GenOutcome.success).generateCalls = [("m1", "chart")] ∧
    (handleCreateVisualization alreadyGeneratingStates "m1" "chart"
      GenOutcome.success).generatingStates "m1" = some generatingEntry := by
  decide

/-- C3 (amended): `handleCreateVisualization` performs no
already-generating check: for every prior state of the record, invoking
it issues exactly one generation call and writes the generating entry
for the id, whether or not the id was already generating; double
trigger prevention is left to the callers of the handler. -/
theorem c3_amended_no_guard (states : VisStates)
    (messageId messageContent : String) (outcome : GenOutcome) :
    (handleCreateVisualization states messageId messageContent
      outcome).generateCalls = [(messageId, messageContent)] ∧
    (handleCreateVisualization states messageId messageContent
      outcome).generatingStates messageId = some generatingEntry := by
  cases outcome <;> simp [handleCreateVisualization, setVisState]

/-- C4: when the trimmed message text is empty and no image is
selected, or a send is already in flight, `handleSendMessage` is a
no-op: the event trace is empty, the component state is unchanged, and
the `sendMessage` collaborator is not called. -/
theorem c4_send_rejected_noop (st : GroupChatState) (loading : Bool)
    (outcome : SendOutcome)
    (h : (jsTrim st.inputValue = "" ∧ st.selectedImage = none) ∨
      loading = true) :
    sendEventsOf st loading outcome = [] ∧
    handleSendMessage st loading outcome = st ∧
    sendCallsOf (sendEventsOf st loading outcome) = [] := by
  have hrej : sendRejected st loading = true := by
    rcases h with ⟨h1, h2⟩ | h3
    · simp [sendRejected, h1, h2]
    · simp [sendRejected, h3]
  refine ⟨?_, ?_, ?_⟩ <;>
    simp [sendEventsOf, handleSendMessage, sendCallsOf, hrej]

/-- C4 applied at a concrete input: the freshly mounted state (empty
input, no image) with no send in flight. -/
theorem c4_send_rejected_noop_witness :
    sendEventsOf sampleState false SendOutcome.success = [] ∧
    handleSendMessage sampleState false SendOutcome.success = sampleState ∧
    sendCallsOf (sendEventsOf sampleState false SendOutcome.success) = [] :=
  c4_send_rejected_noop sampleState false SendOutcome.success
    (Or.inl ⟨by decide, by decide⟩)

/-- C5: an accepted send clears the input, the selected image and the
reply state strictly before the `sendMessage` collaborator call (the
first four trace events), passes the captured pre-clear values to the
collaborator exactly once, and on failure sets the user-visible error
string while the cleared draft stays cleared. -/
theorem c5_send_clears_then_calls (st : GroupChatState) (loading : Bool)
    (outcome : SendOutcome)
    (h : ¬((jsTrim st.inputValue = "" ∧ st.selectedImage = none) ∨
      loading = true)) :
    (sendEventsOf st loading outcome).take 4 =
      [SendEvent.setInput "", SendEvent.setImage none,
       SendEvent.setReply initialReplyState,
       SendEvent.callSend (jsTrim st.inputValue) st.selectedImage
         (if st.replyState.isReplying then st.replyState.originalMessage
          else none)] ∧
    sendCallsOf (sendEventsOf st loading outcome) =
      [(jsTrim st.inputValue, st.selectedImage,
        if st.replyState.isReplying then st.replyState.originalMessage
        else none)] ∧
    (handleSendMessage st loading outcome).inputValue = "" ∧
    (handleSendMessage st loading outcome).selectedImage = none ∧
    (handleSendMessage st loading outcome).replyState = initialReplyState ∧
    (outcome = SendOutcome.failure →
      (handleSendMessage st loading outcome).error =
        some "Failed to send message. Please try again.") := by
  have hrej : sendRejected st loading = false := by
    cases hb : sendRejected st loading with
    | false => rfl
    | true =>
      exfalso
      apply h
      simp only [sendRejected, Bool.or_eq_true, Bool.and_eq_true,
        beq_iff_eq, Option.isNone_iff_eq_none] at hb
      exact hb
  cases outcome <;>
    refine ⟨?_, ?_, ?_, ?_, ?_, ?_⟩ <;>
      simp [sendEventsOf, handleSendMessage, sendCallsOf, applySendEvent,
        hrej]

/-- C5 applied at a concrete input: a state with the draft "hello team"
typed, no send in flight, and a collaborator that rejects. -/
theorem c5_send_clears_then_calls_witness :
    (sendEventsOf typedState false SendOutcome.failure).take 4 =
      [SendEvent.setInput "", SendEvent.setImage none,
       SendEvent.setReply initialReplyState,
       SendEvent.callSend (jsTrim typedState.inputValue)
         typedState.selectedImage
         (if typedState.replyState.isReplying then
            typedState.replyState.originalMessage
          else none)] ∧
    sendCallsOf (sendEventsOf typedState false SendOutcome.failure) =
      [(jsTrim typedState.inputValue, typedState.selectedImage,
        if typedState.replyState.isReplying then
          typedState.replyState.originalMessage
        else none)] ∧
    (handleSendMessage typedState false SendOutcome.failure).inputValue =
      "" ∧
    (handleSendMessage typedState false SendOutcome.failure).selectedImage =
      none ∧
    (handleSendMessage typedState false SendOutcome.failure).replyState =
      initialReplyState ∧
    (SendOutcome.failure = SendOutcome.failure →
      (handleSendMessage typedState false SendOutcome.failure).error =
        some "Failed to send message. Please try again.") :=
  c5_send_clears_then_calls typedState false SendOutcome.failure (by decide)

/-- C6: `handleReply` stores a snippet that equals the first 100 units
of the source content followed by "..." when the content is longer than
100 units (and that truncated part has length exactly 100), and equals
the content unchanged when it is at most 100 units long. -/
theorem c6_reply_snippet (st : GroupChatState)
    (messageId messageContent userName timestamp : String) :
    (jsLength messageContent > 100 →
      (handleReply st messageId messageContent userName
        timestamp).replyState.messageSnippet =
        some (jsTake messageContent 100 ++ "...") ∧
      jsLength (jsTake messageContent 100) = 100) ∧
    (jsLength messageContent ≤ 100 →
      (handleReply st messageId messageContent userName
        timestamp).replyState.messageSnippet = some messageContent) := by
  constructor
  · intro hlong
    refine ⟨by simp [handleReply, hlong], ?_⟩
    have : (messageContent.data.take 100).length = 100 := by
      rw [List.length_take]
      simp only [jsLength] at hlong
      omega
    simpa [jsLength, jsTake] using this
  · intro hshort
    have hnot : ¬jsLength messageContent > 100 := by omega
    simp [handleReply, hnot]

set_option maxRecDepth 4000 in
/-- C6 applied at concrete inputs: a 150 character source yields the
first 100 characters plus "...", and a 50 character source is stored
unchanged. -/
theorem c6_reply_snippet_witness :
    ((handleReply sampleState "m1" str150 "Clay"
        "t").replyState.messageSnippet =
      some (jsTake str150 100 ++ "...") ∧
     jsLength (jsTake str150 100) = 100) ∧
    (handleReply sampleState "m2" str50 "Clay"
        "t").replyState.messageSnippet = some str50 :=
  ⟨(c6_reply_snippet sampleState "m1" str150 "Clay" "t").1 (by decide),
   (c6_reply_snippet sampleState "m2" str50 "Clay" "t").2 (by decide)⟩

/-- Characterization of `handleViewVisualization`: the branch taken is
determined by `persistedPayloadShown` and then `localContentUsable`. -/
theorem handleViewVisualization_eq (messages : List GroupMsg)
    (states : VisStates) (messageId : String) :
    handleViewVisualization messages states messageId =
      if persistedPayloadShown messages messageId then some messageId
      else if localContentUsable states messageId then some messageId
      else none := by
  by_cases hp : persistedPayloadShown messages messageId = true
  · rw [if_pos hp]
    simp only [persistedPayloadShown] at hp
    simp [handleViewVisualization, hp]
  · rw [if_neg hp]
    simp only [Bool.not_eq_true] at hp
    have hp2 : strTruthy ((messages.find? fun m => m.id == messageId).bind
        fun m => m.visualization_data) = false := hp
    simp only [handleViewVisualization, hp2, Bool.false_eq_true, if_false]
    by_cases h : localContentUsable states messageId = true
    · rw [if_pos h]
      unfold localContentUsable at h
      split at h <;> simp_all
      all_goals split at h <;> simp_all
    · rw [if_neg h]
      simp only [Bool.not_eq_true] at h
      unfold localContentUsable at h
      split at h <;> simp_all
      all_goals split at h <;> simp_all

/-- C7: `handleViewVisualization` resolves by precedence: a truthy
persisted payload on the found message opens the visualization surface
for the id; otherwise usable local content (present and different from
the sentinel "generated") opens it; otherwise the call is a no-op and
no surface is opened. -/
theorem c7_view_precedence (messages : List GroupMsg) (states : VisStates)
    (messageId : String) :
    (persistedPayloadShown messages messageId = true →
      handleViewVisualization messages states messageId = some messageId) ∧
    (persistedPayloadShown messages messageId = false →
      localContentUsable states messageId = true →
      handleViewVisualization messages states messageId = some messageId) ∧
    (persistedPayloadShown messages messageId = false →
      localContentUsable states messageId = false →
      handleViewVisualization messages states messageId = none) := by
  have heq := handleViewVisualization_eq messages states messageId
  refine ⟨fun h1 => ?_, fun h1 h2 => ?_, fun h1 h2 => ?_⟩
  · rw [heq]
    simp [h1]
  · rw [heq]
    simp [h1, h2]
  · rw [heq]
    simp [h1, h2]

/-- A single-entry update of the `visualizationStates` record with an
entry that satisfies the invariant preserves the invariant of the whole
record. -/
theorem setVisState_invariant (m : VisStates) (id : String) (v : VisState)
    (hm : VisInvariant m) (hv : VisEntryOK v) :
    VisInvariant (setVisState m id v) := by
  intro k w hk
  simp only [setVisState] at hk
  split at hk
  · exact (Option.some.inj hk) ▸ hv
  · exact hm k w hk

/-- C8: every update of the per-id visualization state performed by
`handleCreateVisualization` (the request-start write, and the success
or failure write) preserves the invariant that `isGenerating` and
`hasVisualization` are never both true for any entry. -/
theorem c8_vis_invariant_preserved (states : VisStates)
    (messageId messageContent : String) (outcome : GenOutcome)
    (h : VisInvariant states) :
    VisInvariant (handleCreateVisualization states messageId messageContent
      outcome).generatingStates ∧
    VisInvariant (handleCreateVisualization states messageId messageContent
      outcome).finalStates := by
  have hg : VisEntryOK generatingEntry := by
    simp [VisEntryOK, generatingEntry]
  have hr : VisEntryOK readyEntry := by
    simp [VisEntryOK, readyEntry]
  have hf : VisEntryOK failedEntry := by
    simp [VisEntryOK, failedEntry]
  cases outcome with
  | success =>
    exact ⟨setVisState_invariant _ _ _ h hg,
      setVisState_invariant _ _ _ (setVisState_invariant _ _ _ h hg) hr⟩
  | failure =>
    exact ⟨setVisState_invariant _ _ _ h hg,
      setVisState_invariant _ _ _ (setVisState_invariant _ _ _ h hg) hf⟩

/-- C8 applied at a concrete input: the empty record (which satisfies
the invariant vacuously) with a successful generation for "m7". -/
theorem c8_vis_invariant_preserved_witness :
    VisInvariant (handleCreateVisualization emptyVisStates "m7" "chart"
      GenOutcome.success).generatingStates ∧
    VisInvariant (handleCreateVisualization emptyVisStates "m7" "chart"
      GenOutcome.success).finalStates :=
  c8_vis_invariant_preserved emptyVisStates "m7" "chart" GenOutcome.success
    (fun k v hk => by simp [emptyVisStates] at hk)

/-- C9: `handleSearch` ignores blank (whitespace-only) queries as a
no-op; on success it replaces the result set with the collaborator
results and opens the results surface; on failure it sets the
user-visible error string and leaves the prior search results and the
results-surface visibility unchanged. -/
theorem c9_search_contract (st : GroupChatState) (query : String)
    (outcome : SearchOutcome) :
    (jsTrim query = "" → handleSearch st query outcome = st) ∧
    (∀ results, jsTrim query ≠ "" →
      outcome = SearchOutcome.success results →
      (handleSearch st query outcome).searchResults = results ∧
      (handleSearch st query outcome).showSearchResults = true) ∧
    (jsTrim query ≠ "" → outcome = SearchOutcome.failure →
      (handleSearch st query outcome).error =
        some "Search failed. Please try again." ∧
      (handleSearch st query outcome).searchResults = st.searchResults ∧
      (handleSearch st query outcome).showSearchResults =
        st.showSearchResults) := by
  refine ⟨fun hb => ?_, fun results hnb ho => ?_, fun hnb ho => ?_⟩
  · simp [handleSearch, hb]
  · subst ho
    simp [handleSearch, hnb]
  · subst ho
    simp [handleSearch, hnb]

/-- C10: for every non-blank query, after `handleSearch` finishes the
busy flag `isSearching` is false, whether the collaborator resolved or
rejected: the `finally` clause always clears it. -/
theorem c10_search_clears_busy (st : GroupChatState) (query : String)
    (outcome : SearchOutcome) (h : jsTrim query ≠ "") :
    (handleSearch st query outcome).isSearching = false := by
  cases outcome <;> simp [handleSearch, h]

/-- C10 applied at a concrete input: the query "budget" on the fresh
state with a rejecting collaborator. -/
theorem c10_search_clears_busy_witness :
    (handleSearch sampleState "budget" SearchOutcome.failure).isSearching =
      false :=
  c10_search_clears_busy sampleState "budget" SearchOutcome.failure
    (by decide)
